import Mathlib

/-!
# Verification of `create_solution.py` (renefueger/Mango)

A shallow embedding of the bootstrap orchestrator `create_solution.py`.

The script's observable behaviour is modelled by explicit state passing:

* the working directory (`cwd`), directories created, files written,
  external commands invoked, build-tool probes issued, lines printed and
  interactive prompts issued are all recorded in a `PState`;
* the outcomes of the external world (existence of paths at program start,
  exit statuses of external commands, their captured output) are an `Oracle`;
* Python control effects are a `PyRes`: normal return, `os._exit(code)`,
  or a propagating exception.

Python semantics faithfully embedded:

* `subprocess.check_call(cmd)` returns `0` when the child exits with
  status 0 and RAISES `CalledProcessError` otherwise (it never returns a
  non-zero value);
* `subprocess.check_output` behaves likewise, returning captured output;
* `subprocess.getstatusoutput` never raises: it returns the exit status;
* `open(path, 'w+')` creates the file but never its parent directory;
  with the parent absent it raises `FileNotFoundError`;
* an uncaught exception terminates the interpreter with exit status 1.

Paths are lists of components (the path literals of the source are
transcribed component-wise, `'glad/gen'` becoming `["glad", "gen"]`),
resolved against the current working directory with `"."` skipped and
`".."` dropping the last component.
-/

/-- Outcome of running a piece of Python code: a normal return,
a process exit via `os._exit`, or a propagating exception. -/
inductive PyRes (α : Type) where
  | ret : α → PyRes α
  | exit : Nat → PyRes α
  | exc : String → PyRes α
deriving DecidableEq, Repr

/-- The observable state accumulated by a run of the script. -/
structure PState where
  /-- current working directory, as components relative to the start directory -/
  cwd : List String
  /-- directories materialized during the run (absolute from the start directory) -/
  dirs : List (List String)
  /-- files written during the run, with their full content -/
  files : List (List String × String)
  /-- argument vectors of `subprocess.check_call` / `check_output` invocations, in order -/
  invoked : List (List String)
  /-- build-tool candidates probed via `subprocess.getstatusoutput`, in order -/
  probed : List String
  /-- lines printed to stdout, in order -/
  printed : List String
  /-- prompts of blocking `input(...)` calls, in order -/
  prompts : List String
deriving DecidableEq, Repr

/-- The environment: what the filesystem and the external tools do. -/
structure Oracle where
  /-- which paths exist on disk at program start -/
  exists0 : List String → Bool
  /-- exit status of the child process for each `check_call` / `check_output` argv -/
  checkCall : List String → Nat
  /-- captured stdout of a `check_output` invocation -/
  outputOf : List String → String
  /-- exit status reported by `subprocess.getstatusoutput` for a probe command -/
  probe : String → Nat

/-- The state at program start. -/
def initState : PState := ⟨[], [], [], [], [], [], []⟩

/-- Resolve a relative path (given as components) against a working
directory: `"."` is skipped, `".."` drops the last component. -/
def resolvePath (cwd : List String) (comps : List String) : List String :=
  comps.foldl
    (fun c comp =>
      if comp = "." then c else if comp = ".." then c.dropLast else c ++ [comp])
    cwd

/-- Embeds `os.path.exists(p)`: true iff the resolved path existed at program
start or was materialized (directory or file) during the run. -/
def pathExists (o : Oracle) (s : PState) (p : List String) : Bool :=
  let full := resolvePath s.cwd p
  o.exists0 full || s.dirs.contains full || s.files.any (fun f => f.1 == full)

/-- Embeds `os.mkdir(p)` (only ever called by the script after checking absence). -/
def os_mkdir (s : PState) (p : List String) : PState :=
  { s with dirs := s.dirs ++ [resolvePath s.cwd p] }

/-- Embeds `os.chdir(p)`. -/
def os_chdir (s : PState) (p : List String) : PState :=
  { s with cwd := resolvePath s.cwd p }

/-- Embeds `print(line)`. -/
def pyPrint (s : PState) (line : String) : PState :=
  { s with printed := s.printed ++ [line] }

/-- Embeds `input(prompt)`: blocks on a line from standard input. -/
def pyInput (s : PState) (prompt : String) : PState :=
  { s with prompts := s.prompts ++ [prompt] }

/-- Embeds `subprocess.check_call(cmd, stderr=STDOUT, shell=False)`: runs `cmd`;
returns `0` when the child exits 0 and raises `CalledProcessError` otherwise. -/
def check_call (o : Oracle) (cmd : List String) (s : PState) : PyRes Nat × PState :=
  let s := { s with invoked := s.invoked ++ [cmd] }
  if o.checkCall cmd = 0 then (.ret 0, s) else (.exc "CalledProcessError", s)

/-- Embeds `subprocess.check_output(cmd, universal_newlines=True, shell=False)`:
returns the captured stdout when the child exits 0, raises otherwise. -/
def check_output (o : Oracle) (cmd : List String) (s : PState) : PyRes String × PState :=
  let s := { s with invoked := s.invoked ++ [cmd] }
  if o.checkCall cmd = 0 then (.ret (o.outputOf cmd), s) else (.exc "CalledProcessError", s)

/-- All prefixes of `full` strictly longer than `cwd`: the directories a
`git clone` into a (possibly nested) destination materializes. -/
def dirsBelow (cwd full : List String) : List (List String) :=
  (List.range (full.length + 1)).filterMap
    (fun n => if cwd.length < n then some (full.take n) else none)

/-- External effect of a successful `git clone <repo> <folder>`: the
destination directory (and any intermediate components) now exists. -/
def gitCloneEffect (s : PState) (folder : List String) : PState :=
  { s with dirs := s.dirs ++ dirsBelow s.cwd (resolvePath s.cwd folder) }

/-- Embeds `open(p, 'w+')` followed by writes of `content` and `close()`: creates
or truncates the file, but never creates the parent directory — if the
parent is absent the `open` raises `FileNotFoundError`. -/
def py_writeFile (o : Oracle) (s : PState) (p : List String) (content : String) :
    PyRes Unit × PState :=
  let full := resolvePath s.cwd p
  let parent := full.dropLast
  if o.exists0 parent || s.dirs.contains parent then
    (.ret (), { s with files := s.files ++ [(full, content)] })
  else
    (.exc "FileNotFoundError", s)

/-- Line 12: `['git', 'clone', 'https://github.com/glfw/glfw.git', 'glfw']`. -/
def gitCloneGlfwCmd : List String :=
  ["git", "clone", "https://github.com/glfw/glfw.git", "glfw"]

/-- Line 20: `['git', 'clone', 'https://github.com/Dav1dde/glad.git', 'glad/gen']`. -/
def gitCloneGladCmd : List String :=
  ["git", "clone", "https://github.com/Dav1dde/glad.git", "glad/gen"]

/-- Line 27: the glad generation command. -/
def gladGenCmd : List String :=
  ["python", "-m", "glad", "--generator=c", "--spec=gl", "--out-path=..", "--reproducible"]

/-- Line 44: `['git', 'clone', 'https://github.com/google/googletest.git', 'googletest']`. -/
def gitCloneGoogletestCmd : List String :=
  ["git", "clone", "https://github.com/google/googletest.git", "googletest"]

/-- Line 53: `['git', 'clone', 'https://github.com/gabime/spdlog.git', 'spdlog']`. -/
def gitCloneSpdlogCmd : List String :=
  ["git", "clone", "https://github.com/gabime/spdlog.git", "spdlog"]

/-- Lines 35-37: the three `f.write` calls, concatenated into the file's
content (written into `./glad/CMakeLists.txt`). -/
def cmakeListsContent : String :=
  "project(glad)\r\n"
    ++ "add_library(glad src/glad.c include/glad/glad.h include/KHR/khrplatform.h)\r\n"
    ++ "target_include_directories(glad PUBLIC include)\r\n"

/-- Lines 3-59: `getDependencies()`. Mirrors the source line by line; the
`if result != 0: return False` branches are transcribed as written even
though `check_call` only ever returns `0` on its non-raising path. -/
def getDependencies (o : Oracle) (s : PState) : PyRes Bool × PState :=
  if pathExists o s ["dependencies"] then (.ret true, s) else
  let s := os_mkdir s ["dependencies"]
  let s := os_chdir s ["dependencies"]
  -- glfw
  match check_call o gitCloneGlfwCmd s with
  | (.exc e, s) => (.exc e, s)
  | (.exit n, s) => (.exit n, s)
  | (.ret result, s) =>
  let s := gitCloneEffect s ["glfw"]
  if result ≠ 0 then (.ret false, s) else
  -- glad
  match check_call o gitCloneGladCmd s with
  | (.exc e, s) => (.exc e, s)
  | (.exit n, s) => (.exit n, s)
  | (.ret result, s) =>
  let s := gitCloneEffect s ["glad", "gen"]
  if result ≠ 0 then (.ret false, s) else
  let s := os_chdir s ["glad", "gen"]
  match check_call o gladGenCmd s with
  | (.exc e, s) => (.exc e, s)
  | (.exit n, s) => (.exit n, s)
  | (.ret result, s) =>
  if result ≠ 0 then (.ret false, s) else
  let s := os_chdir s ["..", ".."]
  match py_writeFile o s [".", "glad", "CMakeLists.txt"] cmakeListsContent with
  | (.exc e, s) => (.exc e, s)
  | (.exit n, s) => (.exit n, s)
  | (.ret _, s) =>
  -- googletest
  match check_call o gitCloneGoogletestCmd s with
  | (.exc e, s) => (.exc e, s)
  | (.exit n, s) => (.exit n, s)
  | (.ret result, s) =>
  let s := gitCloneEffect s ["googletest"]
  if result ≠ 0 then (.ret false, s) else
  -- spdlog
  match check_call o gitCloneSpdlogCmd s with
  | (.exc e, s) => (.exc e, s)
  | (.exit n, s) => (.exit n, s)
  | (.ret result, s) =>
  let s := gitCloneEffect s ["spdlog"]
  if result ≠ 0 then (.ret false, s) else
  (.ret true, os_chdir s [".."])

/-- Line 63: the fixed build-tool candidate list. -/
def makes : List String := ["make", "nmake", "mingw32-make", "ninja"]

/-- Lines 64-70: the probe loop. Each iteration sets `makeCmd = [make]`,
probes it with `subprocess.getstatusoutput` (which never raises), and
breaks on status 0; on exhaustion, `status` and `makeCmd` keep the values
of the last iteration. -/
def runProbes (o : Oracle) (candidates : List String) (status : Nat)
    (makeCmd : List String) (s : PState) : Nat × List String × PState :=
  match candidates with
  | [] => (status, makeCmd, s)
  | m :: rest =>
    let s := { s with probed := s.probed ++ [m] }
    let st := o.probe m
    if st ≠ 0 then runProbes o rest st [m] s else (0, [m], s)

/-- Lines 62-86: `tryRunningMake()`. The `else` of line 83 is transcribed
as written even though `check_call` only ever returns `0`. -/
def tryRunningMake (o : Oracle) (s : PState) : PyRes Unit × PState :=
  match runProbes o makes 1 [] s with
  | (status, makeCmd, s) =>
  if status ≠ 0 then
    let s := pyPrint s "Can not get the available make derivate."
    let s := pyPrint s "Please run your \x27make\x27 in the bild directory!"
    let s := pyInput s "PRESS ENTER TO CONTINUE."
    (.exit 1, s)
  else
  let s := pyPrint s ("Using " ++ (match makeCmd with | [] => "" | c :: _ => c) ++ ".")
  match check_call o makeCmd s with
  | (.exc e, s) => (.exc e, s)
  | (.exit n, s) => (.exit n, s)
  | (.ret result, s) =>
  if result = 0 then
    (.ret (), pyPrint s "Done building Mango.")
  else
    let s := pyPrint s "Failed building Mango."
    let s := pyInput s "PRESS ENTER TO CONTINUE."
    (.exit 1, s)

/-!
## String helpers for the help-listing filter

Python's `str.split(sep, 1)[1]`, `str.split(sep)`, `str.replace`,
`str.lower` and the `in` containment test are implemented over `List Char`
by structural recursion, so that every run is kernel-computable.
-/

/-- The character data after the first occurrence of `pat` in `l`;
`none` when `pat` does not occur. (`s.split(pat, 1)[1]` in Python —
`none` corresponds to the `IndexError` of indexing a 1-element list.) -/
def afterFirst (pat : List Char) : List Char → Option (List Char)
  | [] => if pat.isEmpty then some [] else none
  | a :: rest =>
    if pat.isPrefixOf (a :: rest) then some ((a :: rest).drop pat.length)
    else afterFirst pat rest

/-- Split on a single character; like Python's `str.split(c)`, empty
pieces included: `n` separators yield `n + 1` pieces. -/
def splitCh (c : Char) : List Char → List (List Char)
  | [] => [[]]
  | a :: rest =>
    match splitCh c rest with
    | [] => [[]]
    | g :: gs => if a = c then [] :: g :: gs else (a :: g) :: gs

/-- Replace every non-overlapping occurrence of `pat` by `repl`, scanning
left to right (Python's `str.replace`). `fuel` bounds the recursion; the
callers pass the length of the scanned list, which suffices because every
step consumes at least one character. -/
def replaceAll (pat repl : List Char) : Nat → List Char → List Char
  | _, [] => []
  | 0, l => l
  | fuel + 1, a :: rest =>
    if pat.isPrefixOf (a :: rest) then
      repl ++ replaceAll pat repl fuel ((a :: rest).drop pat.length)
    else
      a :: replaceAll pat repl fuel rest

/-- Substring containment (Python's `pat in l`). -/
def containsSub (pat : List Char) : List Char → Bool
  | [] => pat.isPrefixOf []
  | a :: rest => pat.isPrefixOf (a :: rest) || containsSub pat rest

/-- Line 104: `row.replace('[arch]', '      ')` — the placeholder is
blanked by a string of the same width. -/
def blankArch (row : String) : String :=
  ⟨replaceAll "[arch]".data "      ".data row.data.length row.data⟩

/-- Line 105: `'option' in row.lower()`. ASCII lowering is all the help
text needs; `Char.toLower` agrees with Python there. -/
def rowHasOption (row : String) : Bool :=
  containsSub "option".data (row.data.map Char.toLower)

/-- Lines 103-106: the row loop of the help branch — blank the
architecture placeholder, print the row unless it mentions options. -/
def printRows (rows : List String) (s : PState) : PState :=
  rows.foldl
    (fun s row =>
      let row := blankArch row
      if rowHasOption row then s else pyPrint s row)
    s

/-- Line 95/99: the usage line. -/
def usageLine : String := "usage: create_solution.py -G <cmake_generator>"

/-- Lines 97-109: the option-processing loop of `main`. Carries the
current `cmakeGen` value; a help option prints the usage line, slices the
`cmake -h` output after `'Generators'`, filters and prints the rows, and
exits 0. Unknown options (which `getopt` cannot produce here) fall
through, as in the source's `for`/`elif`. -/
def optLoop (o : Oracle) : List (String × String) → String → PState → PyRes String × PState
  | [], g, s => (.ret g, s)
  | (opt, arg) :: rest, g, s =>
    if opt = "-h" ∨ opt = "--help" then
      let s := pyPrint s usageLine
      match check_output o ["cmake", "-h"] s with
      | (.exc e, s) => (.exc e, s)
      | (.exit n, s) => (.exit n, s)
      | (.ret output, s) =>
      match afterFirst "Generators".data output.data with
      | none => (.exc "IndexError", s)
      | some generators =>
      let s := printRows ((splitCh '\n' generators).map (fun l => ⟨l⟩)) s
      (.exit 0, s)
    else if opt = "-G" ∨ opt = "--cmake_generator" then
      optLoop o rest arg s
    else
      optLoop o rest g s

/-- Lines 128-146: the CMake step and the build step of `main`. The
source's `print('Building Mango.')` sits after the `if result == 0`
block; it is reached exactly when that branch did not exit, so it is
transcribed inside the `result = 0` branch. -/
def cmakeAndBuild (o : Oracle) (cmakeCmd : List String) (s : PState) : PyRes Unit × PState :=
  let s := pyPrint s "Running CMake."
  let s := if pathExists o s ["build"] then s else os_mkdir s ["build"]
  let s := os_chdir s ["build"]
  match check_call o cmakeCmd s with
  | (.exc e, s) => (.exc e, s)
  | (.exit n, s) => (.exit n, s)
  | (.ret result, s) =>
  if result = 0 then
    let s := pyPrint s "Done running CMake."
    let s := pyPrint s "Building Mango."
    match tryRunningMake o s with
    | (.exc e, s) => (.exc e, s)
    | (.exit n, s) => (.exit n, s)
    | (.ret _, s) =>
    let s := os_chdir s [".."]
    let s := pyInput s "PRESS ENTER TO CONTINUE."
    (.ret (), s)
  else
    let s := pyPrint s "Failed running CMake."
    let s := pyInput s "PRESS ENTER TO CONTINUE."
    (.exit 1, s)

namespace CreateSolution

/-- Lines 89-146: `main(argv)`. The `getopt` call is modelled by its
outcome: `Except.error` is the `GetoptError` branch (lines 93-96),
`Except.ok opts` hands the parsed option list to the loop. (Namespaced:
a bare top-level `main` is reserved for executable entry points.) -/
def main (o : Oracle) (argvParse : Except Unit (List (String × String))) (s : PState) :
    PyRes Unit × PState :=
  match argvParse with
  | .error _ =>
    let s := pyPrint s "get help with: create_solution.py -h"
    let s := pyPrint s usageLine
    (.exit 1, s)
  | .ok opts =>
  match optLoop o opts "" s with
  | (.exc e, s) => (.exc e, s)
  | (.exit n, s) => (.exit n, s)
  | (.ret cmakeGen, s) =>
  let p :=
    if cmakeGen = "" then
      (["cmake", ".."], pyPrint s "The platform default cmake generator is used. This may fail.")
    else
      (["cmake", "-G", cmakeGen, ".."], pyPrint s ("The generator for cmake is " ++ cmakeGen))
  match p with
  | (cmakeCmd, s) =>
  let s := pyPrint s "Loading dependencies."
  match getDependencies o s with
  | (.exc e, s) => (.exc e, s)
  | (.exit n, s) => (.exit n, s)
  | (.ret true, s) =>
    let s := pyPrint s "Done loading dependencies."
    cmakeAndBuild o cmakeCmd s
  | (.ret false, s) =>
    let s := pyPrint s "Failed loading dependencies."
    let s := pyInput s "PRESS ENTER TO CONTINUE."
    (.exit 1, s)

/-- Lines 149-150 plus interpreter semantics: the process exit status of
a run of the script. A normal return from `main` exits 0, `os._exit(n)`
exits `n`, and an uncaught exception makes the interpreter exit 1 after a
traceback. -/
def runScript (o : Oracle) (argvParse : Except Unit (List (String × String))) (s : PState) :
    Nat × PState :=
  match main o argvParse s with
  | (.ret _, s) => (0, s)
  | (.exit n, s) => (n, s)
  | (.exc _, s) => (1, s)

end CreateSolution

/-!
## Shared lemmas and concrete environments
-/

/-- State after a fully successful provisioning run started from the start
directory with empty history except `printed = pr`. -/
def provisionedState (pr : List String) : PState :=
  { cwd := []
    dirs := [["dependencies"], ["dependencies", "glfw"], ["dependencies", "glad"],
             ["dependencies", "glad", "gen"], ["dependencies", "googletest"],
             ["dependencies", "spdlog"]]
    files := [(["dependencies", "glad", "CMakeLists.txt"], cmakeListsContent)]
    invoked := [gitCloneGlfwCmd, gitCloneGladCmd, gladGenCmd,
                gitCloneGoogletestCmd, gitCloneSpdlogCmd]
    probed := []
    printed := pr
    prompts := [] }

theorem getDependencies_success_run (o : Oracle) (pr : List String)
    (h0 : o.exists0 ["dependencies"] = false)
    (h1 : o.checkCall gitCloneGlfwCmd = 0)
    (h2 : o.checkCall gitCloneGladCmd = 0)
    (h3 : o.checkCall gladGenCmd = 0)
    (h4 : o.checkCall gitCloneGoogletestCmd = 0)
    (h5 : o.checkCall gitCloneSpdlogCmd = 0) :
    getDependencies o ⟨[], [], [], [], [], pr, []⟩
      = (PyRes.ret true, provisionedState pr) := by
  simp [getDependencies, check_call, pathExists, initState, resolvePath, h0, h1, h2, h3, h4, h5,
    os_mkdir, os_chdir, gitCloneEffect, dirsBelow, py_writeFile, provisionedState,
    List.range_succ]

/-- Filter applied to one row of the generator listing: blank the
architecture placeholder, drop the row when it mentions options. -/
def helpRowFilter (row : String) : Option String :=
  if rowHasOption (blankArch row) then none else some (blankArch row)

theorem printRows_eq (rows : List String) (s : PState) :
    printRows rows s = { s with printed := s.printed ++ rows.filterMap helpRowFilter } := by
  induction rows generalizing s with
  | nil => simp [printRows]
  | cons r rs ih =>
    have ih' := ih
    simp only [printRows] at ih' ⊢
    by_cases h : rowHasOption (blankArch r)
    · simp only [List.foldl_cons, h, if_true, List.filterMap_cons, helpRowFilter]
      rw [ih' s]
    · simp only [List.foldl_cons, List.filterMap_cons, helpRowFilter, h,
        Bool.false_eq_true, if_false]
      rw [ih' (pyPrint s (blankArch r))]
      simp [pyPrint]

/-- Environment in which the dependency root already exists and every
external command succeeds. -/
def oRootExists : Oracle := ⟨fun _ => true, fun _ => 0, fun _ => "", fun _ => 0⟩

/-- Environment with a fresh workspace in which every external command
succeeds and the first build tool probes fine. -/
def oAllOk : Oracle := ⟨fun _ => false, fun _ => 0, fun _ => "", fun _ => 0⟩

/-- Environment with a fresh workspace in which the very first clone
(glfw) exits with status 1. -/
def oGlfwFail : Oracle :=
  ⟨fun _ => false, fun c => if c = gitCloneGlfwCmd then 1 else 0, fun _ => "", fun _ => 0⟩

/-- Environment with a fresh workspace in which the third command of the
sequence (the glad generation) exits with status 1. -/
def oGenFail : Oracle :=
  ⟨fun _ => false, fun c => if c = gladGenCmd then 1 else 0, fun _ => "", fun _ => 0⟩

/-- Environment where `make` is not usable but `nmake` is. -/
def oProbeNmake : Oracle :=
  ⟨fun _ => true, fun _ => 0, fun _ => "", fun m => if m = "nmake" then 0 else 1⟩

/-- Environment where every build-tool probe fails. -/
def oProbeAllFail : Oracle := ⟨fun _ => true, fun _ => 0, fun _ => "", fun _ => 1⟩

/-- Environment where the dependency root exists but the cmake invocation
exits with status 1. -/
def oCmakeFail : Oracle :=
  ⟨fun p => p == ["dependencies"], fun c => if c = ["cmake", ".."] then 1 else 0,
   fun _ => "", fun _ => 0⟩

/-- Sample `cmake -h` output for exercising the help branch. -/
def helpSample : String :=
  "AB Generators\nG1 [arch] x\nNo extra\nAn Option row\nG2"

/-- Environment for the help branch: `cmake -h` succeeds and prints
`helpSample`. -/
def oHelp : Oracle := ⟨fun _ => false, fun _ => 0, fun _ => helpSample, fun _ => 1⟩

/-!
## The claims
-/

/-- C1, counterexample: the working-directory invariant fails on the
fail-fast path. In the environment where the first clone fails, the call
to `getDependencies` ends (with the propagating `CalledProcessError`)
while the working directory is still inside `dependencies`, not where it
started. -/
theorem provision_failure_leaves_cwd_changed :
    (getDependencies oGlfwFail initState).1 ≠ PyRes.ret true ∧
    (getDependencies oGlfwFail initState).2.cwd ≠ initState.cwd ∧
    (getDependencies oGlfwFail initState).2.cwd = ["dependencies"] := by decide

/-- C1, amended: after any call to `getDependencies` that returns
normally (the only normal returns are the early skip and the fully
successful sequence), the working directory equals its value before the
call; the failure exits do not restore it. -/
theorem getDependencies_cwd_restored_on_normal_return (o : Oracle) (s : PState) (b : Bool)
    (h : (getDependencies o s).1 = PyRes.ret b) :
    (getDependencies o s).2.cwd = s.cwd := by
  by_cases hroot : pathExists o s ["dependencies"]
  · simp [getDependencies, hroot]
  · by_cases c1 : o.checkCall gitCloneGlfwCmd = 0
    · by_cases c2 : o.checkCall gitCloneGladCmd = 0
      · by_cases c3 : o.checkCall gladGenCmd = 0
        · by_cases c4 : o.checkCall gitCloneGoogletestCmd = 0
          · by_cases c5 : o.checkCall gitCloneSpdlogCmd = 0
            · have hw : s.cwd ++ ["dependencies", "glad"]
                  ∈ dirsBelow (s.cwd ++ ["dependencies"])
                      (s.cwd ++ ["dependencies", "glad", "gen"]) := by
                simp only [dirsBelow, List.mem_filterMap, List.mem_range]
                refine ⟨s.cwd.length + 2, ?_, ?_⟩
                · simp only [List.length_append, List.length_cons, List.length_nil]
                  omega
                · rw [if_pos (by
                    simp only [List.length_append, List.length_cons, List.length_nil]
                    omega)]
                  rw [List.take_append 2]
                  rfl
              simp [getDependencies, hroot, check_call, c1, c2, c3, c4, c5,
                os_mkdir, os_chdir, gitCloneEffect, py_writeFile, resolvePath,
                pathExists, hw, List.dropLast_concat]
              split <;> rfl
            · simp [getDependencies, hroot, check_call, c1, c2, c3, c4, c5,
                os_mkdir, os_chdir, gitCloneEffect, py_writeFile, resolvePath] at h
              split at h <;> simp_all
          · simp [getDependencies, hroot, check_call, c1, c2, c3, c4,
              os_mkdir, os_chdir, gitCloneEffect, py_writeFile, resolvePath] at h
            split at h <;> simp_all
        · simp [getDependencies, hroot, check_call, c1, c2, c3,
            os_mkdir, os_chdir, gitCloneEffect] at h
      · simp [getDependencies, hroot, check_call, c1, c2,
          os_mkdir, os_chdir, gitCloneEffect] at h
    · simp [getDependencies, hroot, check_call, c1, os_mkdir, os_chdir] at h

/-- C1, witness for the amended theorem at a concrete normal return. -/
theorem getDependencies_cwd_restored_on_normal_return_witness :
    (getDependencies oRootExists initState).1 = PyRes.ret true ∧
    (getDependencies oRootExists initState).2.cwd = initState.cwd :=
  ⟨by decide,
   getDependencies_cwd_restored_on_normal_return oRootExists initState true (by decide)⟩

/-- C2: when the third command of the fixed sequence (the glad
generation) reports a non-zero status, the later commands are never
invoked and nothing already created is removed — but `getDependencies`
does not return `False` to its caller: `subprocess.check_call` raises
`CalledProcessError`, so the `return False` on the failure branches is
unreachable and the exception propagates instead. -/
theorem provision_failure_raises_instead_of_returning_false :
    (getDependencies oGenFail initState).1 = PyRes.exc "CalledProcessError" ∧
    (getDependencies oGenFail initState).1 ≠ PyRes.ret false ∧
    (getDependencies oGenFail initState).2.invoked
      = [gitCloneGlfwCmd, gitCloneGladCmd, gladGenCmd] ∧
    (getDependencies oGenFail initState).2.dirs
      = [["dependencies"], ["dependencies", "glfw"],
         ["dependencies", "glad"], ["dependencies", "glad", "gen"]] ∧
    (getDependencies oGenFail initState).2.files = [] := by decide

/-- C3: with the dependency root already present — whatever it contains —
`getDependencies` returns success at once, invoking no command and
touching nothing: the resulting state is exactly the input state. -/
theorem provision_skips_when_root_exists (o : Oracle) (s : PState)
    (h : pathExists o s ["dependencies"] = true) :
    getDependencies o s = (PyRes.ret true, s) := by
  simp [getDependencies, h]

/-- C3, witness: a concrete environment whose dependency root exists. -/
theorem provision_skips_when_root_exists_witness :
    pathExists oRootExists initState ["dependencies"] = true ∧
    getDependencies oRootExists initState = (PyRes.ret true, initState) :=
  ⟨by decide, provision_skips_when_root_exists oRootExists initState (by decide)⟩

/-- C4: if the first `k` candidates fail their probe and candidate `k`
probes with status zero, the cascade probes exactly the first `k + 1`
candidates (none after the selected one) and the selected candidate is
the one invoked for the real build. -/
theorem cascade_selects_first_successful_probe (o : Oracle) (s : PState)
    (k : Nat) (sel : String) (rest : List String)
    (hk : makes.drop k = sel :: rest)
    (hfail : ∀ m ∈ makes.take k, o.probe m ≠ 0)
    (hsel : o.probe sel = 0) :
    (tryRunningMake o s).2.probed = s.probed ++ makes.take (k + 1) ∧
    (tryRunningMake o s).2.invoked = s.invoked ++ [[sel]] := by
  match k with
  | 0 =>
    simp [makes] at hk
    obtain ⟨h, -⟩ := hk
    subst h
    by_cases hb : o.checkCall ["make"] = 0 <;>
      simp [tryRunningMake, runProbes, makes, hsel, check_call, pyPrint, hb, pyInput]
  | 1 =>
    simp [makes] at hk
    obtain ⟨h, -⟩ := hk
    subst h
    have f1 : o.probe "make" ≠ 0 := hfail "make" (by simp [makes])
    by_cases hb : o.checkCall ["nmake"] = 0 <;>
      simp [tryRunningMake, runProbes, makes, hsel, f1, check_call, pyPrint, hb, pyInput]
  | 2 =>
    simp [makes] at hk
    obtain ⟨h, -⟩ := hk
    subst h
    have f1 : o.probe "make" ≠ 0 := hfail "make" (by simp [makes])
    have f2 : o.probe "nmake" ≠ 0 := hfail "nmake" (by simp [makes])
    by_cases hb : o.checkCall ["mingw32-make"] = 0 <;>
      simp [tryRunningMake, runProbes, makes, hsel, f1, f2, check_call, pyPrint, hb, pyInput]
  | 3 =>
    simp [makes] at hk
    obtain ⟨h, -⟩ := hk
    subst h
    have f1 : o.probe "make" ≠ 0 := hfail "make" (by simp [makes])
    have f2 : o.probe "nmake" ≠ 0 := hfail "nmake" (by simp [makes])
    have f3 : o.probe "mingw32-make" ≠ 0 := hfail "mingw32-make" (by simp [makes])
    by_cases hb : o.checkCall ["ninja"] = 0 <;>
      simp [tryRunningMake, runProbes, makes, hsel, f1, f2, f3, check_call, pyPrint, hb, pyInput]
  | n + 4 =>
    simp [makes] at hk

/-- C4, witness: `make` fails its probe, `nmake` succeeds, so exactly
`make` and `nmake` are probed and `nmake` runs the real build. -/
theorem cascade_selects_first_successful_probe_witness :
    makes.drop 1 = "nmake" :: ["mingw32-make", "ninja"] ∧
    (∀ m ∈ makes.take 1, oProbeNmake.probe m ≠ 0) ∧
    oProbeNmake.probe "nmake" = 0 ∧
    ((tryRunningMake oProbeNmake initState).2.probed
        = initState.probed ++ makes.take (1 + 1) ∧
     (tryRunningMake oProbeNmake initState).2.invoked
        = initState.invoked ++ [["nmake"]]) :=
  ⟨by decide, by decide, by decide,
   cascade_selects_first_successful_probe oProbeNmake initState 1 "nmake"
     ["mingw32-make", "ninja"] (by decide) (by decide) rfl⟩

/-- C5: when every candidate fails its probe, `tryRunningMake` prints the
diagnostic, blocks on the confirmation prompt, terminates the process
with status 1 via `os._exit`, and never invokes any build tool for the
real build. -/
theorem cascade_exhausted_fatal (o : Oracle) (s : PState)
    (hall : ∀ m ∈ makes, o.probe m ≠ 0) :
    (tryRunningMake o s).1 = PyRes.exit 1 ∧
    (tryRunningMake o s).2.invoked = s.invoked ∧
    (tryRunningMake o s).2.probed = s.probed ++ makes ∧
    (tryRunningMake o s).2.printed = s.printed ++
      ["Can not get the available make derivate.",
       "Please run your \x27make\x27 in the bild directory!"] ∧
    (tryRunningMake o s).2.prompts = s.prompts ++ ["PRESS ENTER TO CONTINUE."] := by
  have h1 : o.probe "make" ≠ 0 := hall "make" (by simp [makes])
  have h2 : o.probe "nmake" ≠ 0 := hall "nmake" (by simp [makes])
  have h3 : o.probe "mingw32-make" ≠ 0 := hall "mingw32-make" (by simp [makes])
  have h4 : o.probe "ninja" ≠ 0 := hall "ninja" (by simp [makes])
  simp [tryRunningMake, runProbes, makes, h1, h2, h3, h4, pyPrint, pyInput]

/-- C5, witness: every probe fails in `oProbeAllFail`. -/
theorem cascade_exhausted_fatal_witness :
    (∀ m ∈ makes, oProbeAllFail.probe m ≠ 0) ∧
    ((tryRunningMake oProbeAllFail initState).1 = PyRes.exit 1 ∧
     (tryRunningMake oProbeAllFail initState).2.invoked = initState.invoked ∧
     (tryRunningMake oProbeAllFail initState).2.probed = initState.probed ++ makes ∧
     (tryRunningMake oProbeAllFail initState).2.printed = initState.printed ++
       ["Can not get the available make derivate.",
        "Please run your \x27make\x27 in the bild directory!"] ∧
     (tryRunningMake oProbeAllFail initState).2.prompts
       = initState.prompts ++ ["PRESS ENTER TO CONTINUE."]) :=
  ⟨by decide, cascade_exhausted_fatal oProbeAllFail initState (by decide)⟩

/-- C6: whenever the full provisioning sequence runs without failure, the
derived build file `dependencies/glad/CMakeLists.txt` is written with the
fixed content `cmakeListsContent` — a constant independent of the
environment, hence byte-identical across successful runs — and that
content is exactly three newline-terminated lines: the project
declaration, the library target with the fixed source and header paths,
and the public include directory. -/
theorem cmakelists_fixed_three_lines_on_success (o : Oracle)
    (h0 : o.exists0 ["dependencies"] = false)
    (h1 : o.checkCall gitCloneGlfwCmd = 0)
    (h2 : o.checkCall gitCloneGladCmd = 0)
    (h3 : o.checkCall gladGenCmd = 0)
    (h4 : o.checkCall gitCloneGoogletestCmd = 0)
    (h5 : o.checkCall gitCloneSpdlogCmd = 0) :
    (getDependencies o initState).1 = PyRes.ret true ∧
    (getDependencies o initState).2.files
      = [(["dependencies", "glad", "CMakeLists.txt"], cmakeListsContent)] ∧
    splitCh '\n' cmakeListsContent.data
      = ["project(glad)\r".data,
         "add_library(glad src/glad.c include/glad/glad.h include/KHR/khrplatform.h)\r".data,
         "target_include_directories(glad PUBLIC include)\r".data,
         []] := by
  have heq : getDependencies o initState = (PyRes.ret true, provisionedState []) :=
    getDependencies_success_run o [] h0 h1 h2 h3 h4 h5
  rw [heq]
  exact ⟨rfl, rfl, by decide⟩

/-- C6, witness: the fresh, all-successful environment. -/
theorem cmakelists_fixed_three_lines_witness :
    oAllOk.exists0 ["dependencies"] = false ∧
    ((getDependencies oAllOk initState).1 = PyRes.ret true ∧
     (getDependencies oAllOk initState).2.files
       = [(["dependencies", "glad", "CMakeLists.txt"], cmakeListsContent)] ∧
     splitCh '\n' cmakeListsContent.data
       = ["project(glad)\r".data,
          "add_library(glad src/glad.c include/glad/glad.h include/KHR/khrplatform.h)\r".data,
          "target_include_directories(glad PUBLIC include)\r".data,
          []]) :=
  ⟨rfl, cmakelists_fixed_three_lines_on_success oAllOk rfl rfl rfl rfl rfl rfl⟩

/-- C7: when the cmake invocation exits with a non-zero status,
`check_call` raises `CalledProcessError`, which propagates uncaught: the
script terminates with a non-zero status, but WITHOUT printing the
`Failed running CMake.` message and WITHOUT blocking on the confirmation
prompt — the `else` branch coded for that purpose is unreachable. When
cmake exits zero, execution does continue to the compile step (last
conjunct, in the all-successful environment the build tool is invoked). -/
theorem cmake_failure_raises_uncaught :
    (CreateSolution.main oCmakeFail (Except.ok []) initState).1
      = PyRes.exc "CalledProcessError" ∧
    "Failed running CMake." ∉ (CreateSolution.main oCmakeFail (Except.ok []) initState).2.printed ∧
    (CreateSolution.main oCmakeFail (Except.ok []) initState).2.prompts = [] ∧
    (CreateSolution.runScript oCmakeFail (Except.ok []) initState).1 = 1 ∧
    (CreateSolution.main oCmakeFail (Except.ok []) initState).2.invoked.getLast?
      = some ["cmake", ".."] ∧
    ["make"] ∈ (CreateSolution.main oAllOk (Except.ok []) initState).2.invoked := by decide

/-- C8, counterexample: the write step does not create the sibling
directory when it is absent — `open('./glad/CMakeLists.txt', 'w+')`
raises `FileNotFoundError` and materializes no directory. -/
theorem write_step_does_not_create_missing_directory :
    (py_writeFile oGlfwFail { initState with cwd := ["dependencies"] }
        [".", "glad", "CMakeLists.txt"] cmakeListsContent).1
      = PyRes.exc "FileNotFoundError" ∧
    (py_writeFile oGlfwFail { initState with cwd := ["dependencies"] }
        [".", "glad", "CMakeLists.txt"] cmakeListsContent).2.dirs
      = ({ initState with cwd := ["dependencies"] } : PState).dirs := by decide

/-- C8, amended: during provisioning the derived build file is written
into the sibling directory `glad`, which already exists at that point
(it was materialized by the earlier clone of the generator into
`glad/gen`); the write step itself never creates a directory. -/
theorem cmakelists_written_into_preexisting_sibling (o : Oracle)
    (h0 : o.exists0 ["dependencies"] = false)
    (h1 : o.checkCall gitCloneGlfwCmd = 0)
    (h2 : o.checkCall gitCloneGladCmd = 0)
    (h3 : o.checkCall gladGenCmd = 0)
    (h4 : o.checkCall gitCloneGoogletestCmd = 0)
    (h5 : o.checkCall gitCloneSpdlogCmd = 0) :
    (getDependencies o initState).2.files
      = [(["dependencies", "glad", "CMakeLists.txt"], cmakeListsContent)] ∧
    ["dependencies", "glad"] ∈ (getDependencies o initState).2.dirs ∧
    ∀ (o₂ : Oracle) (s₂ : PState) (p : List String) (c : String),
      (py_writeFile o₂ s₂ p c).2.dirs = s₂.dirs := by
  have heq : getDependencies o initState = (PyRes.ret true, provisionedState []) :=
    getDependencies_success_run o [] h0 h1 h2 h3 h4 h5
  rw [heq]
  refine ⟨rfl, by decide, ?_⟩
  intro o₂ s₂ p c
  simp only [py_writeFile]
  split <;> rfl

/-- C8, witness for the amended theorem. -/
theorem cmakelists_written_into_preexisting_sibling_witness :
    oAllOk.exists0 ["dependencies"] = false ∧
    ((getDependencies oAllOk initState).2.files
       = [(["dependencies", "glad", "CMakeLists.txt"], cmakeListsContent)] ∧
     ["dependencies", "glad"] ∈ (getDependencies oAllOk initState).2.dirs ∧
     ∀ (o₂ : Oracle) (s₂ : PState) (p : List String) (c : String),
       (py_writeFile o₂ s₂ p c).2.dirs = s₂.dirs) :=
  ⟨rfl, cmakelists_written_into_preexisting_sibling oAllOk rfl rfl rfl rfl rfl rfl⟩

/-- C9: with the help flag, the script prints the usage line followed by
the slice of the `cmake -h` output after the first `Generators`, split
into rows, with every `[arch]` replaced by six blanks (the same width as
the placeholder) and every row containing `option` case-insensitively
suppressed, and then exits with status 0. -/
theorem help_flag_prints_filtered_generator_rows (o : Oracle) (s : PState) (gens : List Char)
    (hc : o.checkCall ["cmake", "-h"] = 0)
    (hgen : afterFirst "Generators".data (o.outputOf ["cmake", "-h"]).data = some gens) :
    CreateSolution.main o (Except.ok [("-h", "")]) s
      = (PyRes.exit 0,
         { s with
           invoked := s.invoked ++ [["cmake", "-h"]],
           printed := s.printed ++ usageLine ::
             ((splitCh '\n' gens).map (fun l => (⟨l⟩ : String))).filterMap helpRowFilter }) ∧
    ("[arch]" : String).length = ("      " : String).length := by
  constructor
  · simp [CreateSolution.main, optLoop, check_output, hc, hgen, printRows_eq, pyPrint]
  · rfl

/-- C9, witness: a concrete `cmake -h` output containing a `Generators`
marker, an `[arch]` placeholder and a row mentioning options. -/
theorem help_flag_prints_filtered_generator_rows_witness :
    oHelp.checkCall ["cmake", "-h"] = 0 ∧
    afterFirst "Generators".data (oHelp.outputOf ["cmake", "-h"]).data
      = some "\nG1 [arch] x\nNo extra\nAn Option row\nG2".data ∧
    (CreateSolution.main oHelp (Except.ok [("-h", "")]) initState
       = (PyRes.exit 0,
          { initState with
            invoked := initState.invoked ++ [["cmake", "-h"]],
            printed := initState.printed ++ usageLine ::
              ((splitCh '\n' "\nG1 [arch] x\nNo extra\nAn Option row\nG2".data).map
                  (fun l => (⟨l⟩ : String))).filterMap helpRowFilter }) ∧
     ("[arch]" : String).length = ("      " : String).length) :=
  ⟨rfl, by decide,
   help_flag_prints_filtered_generator_rows oHelp initState
     "\nG1 [arch] x\nNo extra\nAn Option row\nG2".data rfl (by decide)⟩

/-- C10: on the full-success path (dependencies provisioned when the root
is absent, or skipped when present; cmake exits zero; first build-tool
probe and the real build exit zero) the script still blocks on the final
confirmation prompt and then exits with status 0, back in the start
directory. -/
theorem full_success_blocks_on_prompt_then_exits_zero (o : Oracle)
    (hcc : ∀ c, o.checkCall c = 0) (hp : o.probe "make" = 0) :
    (CreateSolution.runScript o (Except.ok []) initState).1 = 0 ∧
    (CreateSolution.runScript o (Except.ok []) initState).2.prompts
      = ["PRESS ENTER TO CONTINUE."] ∧
    (CreateSolution.runScript o (Except.ok []) initState).2.cwd = [] := by
  by_cases hD : o.exists0 ["dependencies"] = true
  · by_cases hB : o.exists0 ["build"] = true <;>
      simp [CreateSolution.runScript, CreateSolution.main, optLoop, getDependencies, pathExists,
        resolvePath, initState, hD, hB, cmakeAndBuild, check_call, hcc, tryRunningMake,
        runProbes, makes, hp, os_mkdir, os_chdir, pyPrint, pyInput]
  · have hrun := getDependencies_success_run o
      ["The platform default cmake generator is used. This may fail.", "Loading dependencies."]
      (by simpa using hD) (hcc _) (hcc _) (hcc _) (hcc _) (hcc _)
    by_cases hB : o.exists0 ["build"] = true <;>
      simp [CreateSolution.runScript, CreateSolution.main, optLoop, hrun, pathExists,
        resolvePath, initState, hB, cmakeAndBuild, check_call, hcc, tryRunningMake,
        runProbes, makes, hp, os_mkdir, os_chdir, pyPrint, pyInput, provisionedState]

/-- C10, witness: the fresh, all-successful environment. -/
theorem full_success_blocks_on_prompt_then_exits_zero_witness :
    (∀ c, oAllOk.checkCall c = 0) ∧ oAllOk.probe "make" = 0 ∧
    ((CreateSolution.runScript oAllOk (Except.ok []) initState).1 = 0 ∧
     (CreateSolution.runScript oAllOk (Except.ok []) initState).2.prompts
       = ["PRESS ENTER TO CONTINUE."] ∧
     (CreateSolution.runScript oAllOk (Except.ok []) initState).2.cwd = []) :=
  ⟨fun _ => rfl, rfl,
   full_success_blocks_on_prompt_then_exits_zero oAllOk (fun _ => rfl) rfl⟩
